/-
Verification of the ML health-monitoring core of EmergeControlTower:
a shallow embedding in Lean 4 of
  01-content-factory/python/ml/anomaly_detector.py
  01-content-factory/python/ml/metrics_collector.py
Python floats are modelled as rationals (ℚ).  The external library calls
(sklearn's IsolationForest.fit / predict / decision_function, numpy's sqrt)
are taken as explicit function parameters, since their code is not part of
the repository; everything else is translated directly from the source.
-/
import Mathlib

namespace ECT

/-- Opaque-to-the-core context mapping carried with each metric
(`Dict[str, Any]` in the source); modelled as a list of key/value pairs. -/
abbrev Ctx := List (String × String)

/-- `MetricType` enum from anomaly_detector.py. -/
inductive MetricType where
  | qa_score
  | api_failure_rate
  | response_time
  | cost
  | throughput
deriving DecidableEq, Repr

/-- `SuggestedAction` enum from anomaly_detector.py. -/
inductive SuggestedAction where
  | retrain
  | restart
  | investigate
  | scale_down
  | scale_up
  | no_action
deriving DecidableEq, Repr

/-- The `.value` string of a `MetricType` member. -/
def metricTypeStr : MetricType → String
  | .qa_score => "qa_score"
  | .api_failure_rate => "api_failure_rate"
  | .response_time => "response_time"
  | .cost => "cost"
  | .throughput => "throughput"

/-- `MetricType(s)` coercion: succeeds exactly on the five member strings,
raises `ValueError` (modelled as `none`) otherwise. -/
def parseMetricType (s : String) : Option MetricType :=
  if s = "qa_score" then some .qa_score
  else if s = "api_failure_rate" then some .api_failure_rate
  else if s = "response_time" then some .response_time
  else if s = "cost" then some .cost
  else if s = "throughput" then some .throughput
  else none

/-- The `direction` field of a threshold entry. -/
inductive Direction where
  | higher_is_better
  | lower_is_better
deriving DecidableEq, Repr

/-- One entry of `AnomalyDetector.METRIC_THRESHOLDS`. -/
structure ThresholdEntry where
  min : ℚ
  max : ℚ
  direction : Direction
deriving DecidableEq, Repr

/-- `AnomalyDetector.METRIC_THRESHOLDS` (anomaly_detector.py lines 55-61). -/
def METRIC_THRESHOLDS : MetricType → ThresholdEntry
  | .qa_score => ⟨6, 10, .higher_is_better⟩
  | .api_failure_rate => ⟨0, 1/10, .lower_is_better⟩
  | .response_time => ⟨0, 5000, .lower_is_better⟩
  | .cost => ⟨0, 100, .lower_is_better⟩
  | .throughput => ⟨0, 1000, .higher_is_better⟩

/-- `AnomalyDetector.get_suggested_action` (anomaly_detector.py lines 277-349),
translated clause by clause.  The `deviation` local of the source is computed
but never read, so it is reproduced here as an unused binding. -/
def getSuggestedAction (metric_type : String) (anomaly_score current_value expected_value : ℚ) :
    SuggestedAction :=
  if anomaly_score > 0 then .no_action
  else
    match parseMetricType metric_type with
    | none => .investigate
    | some mt =>
      let _deviation : ℚ :=
        if expected_value ≠ 0 then (current_value - expected_value) / |expected_value|
        else current_value
      match mt with
      | .qa_score =>
        if current_value < 6 then .retrain
        else if current_value < 7 then .investigate
        else .no_action
      | .api_failure_rate =>
        if current_value > 3/10 then .restart
        else if current_value > 3/20 then .investigate
        else .no_action
      | .response_time =>
        if current_value > expected_value * 3 then .scale_up
        else if current_value > expected_value * (3/2) then .investigate
        else if current_value < expected_value * (3/10) ∧ current_value < 100 then .scale_down
        else .no_action
      | .cost =>
        if current_value > expected_value * 2 then .investigate
        else if current_value < expected_value * (3/10) then .scale_down
        else .no_action
      | .throughput =>
        if current_value < expected_value * (1/2) then .scale_up
        else if current_value > expected_value * 2 then .investigate
        else .no_action

/-- Modelled from the spec: the remediation-policy table of spec section 4.2,
written from the spec's words (short-circuit on positive score, then the
per-type rows with their explicit interval bounds), for comparison with
`getSuggestedAction`. -/
def specRemediationTable (metric_type : String) (anomaly_score current_value expected_value : ℚ) :
    SuggestedAction :=
  if anomaly_score > 0 then .no_action
  else
    match parseMetricType metric_type with
    | none => .investigate
    | some .qa_score =>
      if current_value < 6 then .retrain
      else if 6 ≤ current_value ∧ current_value < 7 then .investigate
      else .no_action
    | some .api_failure_rate =>
      if current_value > 3/10 then .restart
      else if 3/20 < current_value ∧ current_value ≤ 3/10 then .investigate
      else .no_action
    | some .response_time =>
      if current_value > 3 * expected_value then .scale_up
      else if 3/2 * expected_value < current_value ∧ current_value ≤ 3 * expected_value then
        .investigate
      else if current_value < 3/10 * expected_value ∧ current_value < 100 then .scale_down
      else .no_action
    | some .cost =>
      if current_value > 2 * expected_value then .investigate
      else if current_value < 3/10 * expected_value then .scale_down
      else .no_action
    | some .throughput =>
      if current_value < 1/2 * expected_value then .scale_up
      else if current_value > 2 * expected_value then .investigate
      else .no_action

/-- A fitted Isolation-Forest model.  sklearn's model object is external
library code; the embedding keeps exactly the two functions the detector
calls on it: `model.predict(x)[0]` and `model.decision_function(x)[0]`. -/
structure Model where
  predict : ℚ → Int
  decision : ℚ → ℚ

/-- A stored baseline dictionary of `AnomalyDetector._baselines`
(keys "mean", "std", "min", "max", "median"). -/
structure Baseline where
  mean : ℚ
  std : ℚ
  min : ℚ
  max : ℚ
  median : ℚ
deriving DecidableEq, Repr

/-- The mutable state of an `AnomalyDetector`: `_models`, `_baselines`,
`_is_trained`.  The construction-time configuration (`contamination`,
`n_estimators`, `random_state`) is only ever forwarded to the external
`IsolationForest` constructor, so it is absorbed into the `fitFn`
parameter of `train`. -/
structure DetectorState where
  models : MetricType → Option Model
  baselines : MetricType → Option Baseline
  is_trained : MetricType → Bool

/-- The state built by `AnomalyDetector.__init__`: empty model and baseline
dictionaries, every type marked untrained. -/
def detectorInit : DetectorState :=
  ⟨fun _ => none, fun _ => none, fun _ => false⟩

/-- Pointwise update of a per-metric-type table (a Python dict write). -/
def setAt {α : Type} (f : MetricType → α) (mt : MetricType) (v : α) : MetricType → α :=
  fun x => if x = mt then v else f x

/-- One raw input dictionary as consumed by `train` / `detect_anomalies`.
`metric_type` models `metric.get("metric_type", "")` (a missing key yields
`""`, which never parses); `value` models `float(metric.get("value", 0))`:
`some q` when the coercion succeeds with result `q` (a missing key gives
`some 0`), `none` when it raises `ValueError`/`TypeError`;
`context` models `metric.get("context", {})`. -/
structure RawMetric where
  metric_type : String
  value : Option ℚ
  context : Ctx
deriving DecidableEq, Repr

/-- The parse performed at the top of both batch loops:
`MetricType(metric.get("metric_type", ""))` then
`float(metric.get("value", 0))`, failing (exception caught, record skipped)
when either step fails. -/
def parseTypedValue (m : RawMetric) : Option (MetricType × ℚ) :=
  match parseMetricType m.metric_type with
  | none => none
  | some mt =>
    match m.value with
    | none => none
    | some v => some (mt, v)

/-- The per-type slice of `grouped_metrics` built by `train`
(anomaly_detector.py lines 104-113): values of parseable records of type
`mt`, in input order. -/
def groupMetrics (ms : List RawMetric) (mt : MetricType) : List ℚ :=
  ms.foldl
    (fun acc m =>
      match parseTypedValue m with
      | some (mt', v) => if mt' = mt then acc ++ [v] else acc
      | none => acc)
    []

/-- Sum of a list of rationals (`np.sum` ingredient of `np.mean`). -/
def listSum (l : List ℚ) : ℚ := l.foldl (· + ·) 0

/-- `np.mean` over a value list. -/
def listMean (l : List ℚ) : ℚ := listSum l / l.length

/-- `np.min` over a value list (the empty case never arises in use). -/
def listMin : List ℚ → ℚ
  | [] => 0
  | h :: t => t.foldl min h

/-- `np.max` over a value list (the empty case never arises in use). -/
def listMax : List ℚ → ℚ
  | [] => 0
  | h :: t => t.foldl max h

/-- Insert into a sorted list (ingredient of the ascending sort below). -/
def insertSorted (x : ℚ) : List ℚ → List ℚ
  | [] => [x]
  | h :: t => if x ≤ h then x :: h :: t else h :: insertSorted x t

/-- Ascending sort (insertion sort), modelling `np.sort`. -/
def sortAsc (l : List ℚ) : List ℚ := l.foldr insertSorted []

/-- `np.median`: sort ascending, take the middle element (odd length) or the
mean of the two middle elements (even length). -/
def listMedian (l : List ℚ) : ℚ :=
  let s := sortAsc l
  let n := l.length
  if n = 0 then 0
  else if n % 2 = 1 then s.getD (n / 2) 0
  else (s.getD (n / 2 - 1) 0 + s.getD (n / 2) 0) / 2

/-- `np.std` (population standard deviation): the square root of the mean
squared deviation.  `sqrtQ` is the external real square root, a parameter
of the embedding. -/
def listStd (sqrtQ : ℚ → ℚ) (l : List ℚ) : ℚ :=
  sqrtQ (listMean (l.map fun x => (x - listMean l) ^ 2))

/-- The baseline dictionary computed by `train`
(anomaly_detector.py lines 129-135). -/
def computeBaseline (sqrtQ : ℚ → ℚ) (values : List ℚ) : Baseline :=
  ⟨listMean values, listStd sqrtQ values, listMin values, listMax values, listMedian values⟩

/-- The body of `train`'s per-type loop (anomaly_detector.py lines 117-157):
fewer than 10 samples reports failure and leaves the state alone; otherwise
the baseline dictionary is written FIRST, then the model is fitted — a fit
exception (`fitFn values = none`) is caught and reported as failure, after
the baseline write has already happened. -/
def trainType (fitFn : List ℚ → Option Model) (sqrtQ : ℚ → ℚ) (st : DetectorState)
    (mt : MetricType) (values : List ℚ) : DetectorState × Bool :=
  if values.length < 10 then (st, false)
  else
    let b := computeBaseline sqrtQ values
    let st1 : DetectorState := { st with baselines := setAt st.baselines mt (some b) }
    match fitFn values with
    | some model =>
      ({ st1 with
          models := setAt st1.models mt (some model)
          is_trained := setAt st1.is_trained mt true }, true)
    | none => (st1, false)

/-- The members of `MetricType` in enum (= dict-insertion) order. -/
def allMetricTypes : List MetricType :=
  [.qa_score, .api_failure_rate, .response_time, .cost, .throughput]

/-- One iteration of `train`'s per-type loop: update the state by
`trainType` and write that type's entry of `training_results`.
`g` is the grouped-values table. -/
def trainStep (fitFn : List ℚ → Option Model) (sqrtQ : ℚ → ℚ) (g : MetricType → List ℚ)
    (acc : DetectorState × (MetricType → Bool)) (mt : MetricType) :
    DetectorState × (MetricType → Bool) :=
  let r := trainType fitFn sqrtQ acc.1 mt (g mt)
  (r.1, setAt acc.2 mt r.2)

/-- `AnomalyDetector.train` (anomaly_detector.py lines 90-159).  `fitFn`
models `IsolationForest(...).fit`: `some model` on success, `none` when
fitting raises (the source catches the exception per metric type). -/
def train (fitFn : List ℚ → Option Model) (sqrtQ : ℚ → ℚ) (st : DetectorState)
    (ms : List RawMetric) : DetectorState × (MetricType → Bool) :=
  if ms.isEmpty then (st, fun _ => false)
  else
    allMetricTypes.foldl (trainStep fitFn sqrtQ (groupMetrics ms)) (st, fun _ => false)

/-- `AnomalyResult` (anomaly_detector.py lines 34-44), without the
wall-clock `timestamp` field. -/
structure AnomalyResult where
  metric_type : MetricType
  current_value : ℚ
  expected_value : ℚ
  anomaly_score : ℚ
  is_anomaly : Bool
  suggested_action : SuggestedAction
  confidence : ℚ
  context : Ctx
deriving Repr

/-- `AnomalyDetector._check_threshold_violation` (lines 254-260).  All five
types have a threshold entry, so the `±inf` dict defaults of the source are
unreachable. -/
def checkThresholdViolation (mt : MetricType) (value : ℚ) : Bool :=
  value < (METRIC_THRESHOLDS mt).min ∨ value > (METRIC_THRESHOLDS mt).max

/-- `AnomalyDetector._calculate_confidence` (lines 262-275):
`min(1.0, |score| / 0.5)`.  The `std` local of the source is computed and
then never used; the baseline argument is kept for signature fidelity. -/
def calculateConfidence (score : ℚ) (_baseline : Baseline) : ℚ :=
  min 1 (|score| / (1/2))

/-- `np.clip(x, lo, hi)`. -/
def clip (x lo hi : ℚ) : ℚ := max lo (min x hi)

/-- `AnomalyDetector._detect_single` (lines 188-252).  The untrained branch
reads the baseline mean with default 0.0 and uses the fixed threshold
table with confidence 0.5; the trained branch consults the fitted model.
When `_is_trained` is true the source indexes `_models`/`_baselines`
unconditionally; the final catch-all arm is unreachable for states the
detector itself constructs (the source would raise `KeyError` there). -/
def detectSingle (st : DetectorState) (mt : MetricType) (value : ℚ) (context : Ctx) :
    AnomalyResult :=
  if ¬ st.is_trained mt then
    let expected_value : ℚ :=
      match st.baselines mt with
      | some b => b.mean
      | none => 0
    let is_anomaly := checkThresholdViolation mt value
    let anomaly_score : ℚ := if is_anomaly then -1 else 1
    let suggested_action := getSuggestedAction (metricTypeStr mt) anomaly_score value expected_value
    ⟨mt, value, expected_value, anomaly_score, is_anomaly, suggested_action, 1/2, context⟩
  else
    match st.models mt, st.baselines mt with
    | some model, some baseline =>
      let prediction := model.predict value
      let score := model.decision value
      let anomaly_score := clip score (-1) 1
      let is_anomaly : Bool := prediction = -1
      let expected_value := baseline.mean
      let confidence := calculateConfidence score baseline
      let suggested_action :=
        getSuggestedAction (metricTypeStr mt) anomaly_score value expected_value
      ⟨mt, value, expected_value, anomaly_score, is_anomaly, suggested_action, confidence, context⟩
    | _, _ => ⟨mt, value, 0, 0, false, .investigate, 0, context⟩

/-- `AnomalyDetector.detect_anomalies` (lines 161-186): per record, parse
type and value, skip the record when either parse fails, otherwise append
the single-value detection result. -/
def detectAnomalies (st : DetectorState) (ms : List RawMetric) : List AnomalyResult :=
  ms.foldl
    (fun acc m =>
      match parseTypedValue m with
      | some (mt, v) => acc ++ [detectSingle st mt v m.context]
      | none => acc)
    []

/-- `MetricRecord` (metrics_collector.py lines 17-24); the `datetime`
timestamp is modelled as a rational instant supplied by the caller. -/
structure MetricRecord where
  agent_slug : String
  metric_type : String
  value : ℚ
  unit : String
  context : Ctx
  timestamp : ℚ
deriving DecidableEq, Repr

/-- The mutable state of a `MetricsCollector`: the configured bound, the
per-agent record lists (`_metrics`, a defaultdict: absent agents map to
`[]`), and the `_registered_agents` set (kept as a duplicate-free list). -/
structure CollectorState where
  max_records_per_agent : Nat
  metrics : String → List MetricRecord
  registered : List String

/-- The state built by `MetricsCollector.__init__`. -/
def collectorInit (max_records_per_agent : Nat) : CollectorState :=
  ⟨max_records_per_agent, fun _ => [], []⟩

/-- `MetricsCollector.record_metric` (lines 63-109): build the record with
the current instant, register the agent, append, and when the list now
exceeds the bound drop the oldest excess records
(`self._metrics[agent_slug][excess:]`). -/
def recordMetric (st : CollectorState) (now : ℚ) (agent_slug metric_type : String)
    (value : ℚ) (unit : String) (context : Ctx) : MetricRecord × CollectorState :=
  let record : MetricRecord := ⟨agent_slug, metric_type, value, unit, context, now⟩
  let registered :=
    if agent_slug ∈ st.registered then st.registered else st.registered ++ [agent_slug]
  let l := st.metrics agent_slug ++ [record]
  let l2 :=
    if l.length > st.max_records_per_agent then l.drop (l.length - st.max_records_per_agent)
    else l
  (record,
   { st with
      registered := registered
      metrics := fun a => if a = agent_slug then l2 else st.metrics a })

/-- One element of the list returned by `get_agent_metrics`
(the dictionary built at metrics_collector.py lines 144-154); the
`isoformat` timestamp string is modelled by the instant itself. -/
structure MetricDict where
  agent_slug : String
  metric_type : String
  value : ℚ
  unit : String
  context : Ctx
  timestamp : ℚ
deriving DecidableEq, Repr

/-- The record-to-dictionary projection of `get_agent_metrics`. -/
def toDict (r : MetricRecord) : MetricDict :=
  ⟨r.agent_slug, r.metric_type, r.value, r.unit, r.context, r.timestamp⟩

/-- `MetricsCollector.get_agent_metrics` (lines 111-154): keep the agent's
records with `timestamp >= now - timedelta(hours=hours)` (the timedelta is
modelled as the rational `hours` itself), then filter by metric type — but
only under Python truthiness, so a `None` or `""` filter keeps everything. -/
def getAgentMetrics (st : CollectorState) (agent_slug : String) (hours : ℚ)
    (metric_type : Option String) (now : ℚ) : List MetricDict :=
  let cutoff := now - hours
  let agent_records := st.metrics agent_slug
  let filtered := agent_records.filter fun r => decide (r.timestamp ≥ cutoff)
  let filtered2 :=
    match metric_type with
    | some s => if s = "" then filtered else filtered.filter fun r => r.metric_type = s
    | none => filtered
  filtered2.map toDict

/-- The dictionary returned by `calculate_baseline`: the five statistics,
the count, and — only in the no-data case — the `"error"` key (the
`BaselineStats.model_dump()` of the data-present case has no such key,
modelled as `error = none`). -/
structure BaselineDict where
  mean : ℚ
  std : ℚ
  min : ℚ
  max : ℚ
  median : ℚ
  count : Nat
  error : Option String
deriving DecidableEq, Repr

/-- `MetricsCollector.calculate_baseline` (lines 156-206): windowed,
type-filtered query; with no matching records, all-zero statistics plus the
explicit `"error": "No metrics found"` marker; otherwise the numpy
statistics over the matching values with `count = len(values)`. -/
def calculateBaseline (sqrtQ : ℚ → ℚ) (st : CollectorState) (agent_slug metric_type : String)
    (hours : ℚ) (now : ℚ) : BaselineDict :=
  let ms := getAgentMetrics st agent_slug hours (some metric_type) now
  if ms.isEmpty then
    ⟨0, 0, 0, 0, 0, 0, some "No metrics found"⟩
  else
    let values := ms.map (·.value)
    ⟨listMean values, listStd sqrtQ values, listMin values, listMax values, listMedian values,
     values.length, none⟩

/-- The argument tuple of one `record_metric` call (with its instant). -/
structure RecordCall where
  agent : String
  now : ℚ
  metric_type : String
  value : ℚ
  unit : String
  context : Ctx
deriving DecidableEq, Repr

/-- The `MetricRecord` that `record_metric` builds for a call. -/
def RecordCall.toRecord (c : RecordCall) : MetricRecord :=
  ⟨c.agent, c.metric_type, c.value, c.unit, c.context, c.now⟩

/-- A sequence of `record_metric` calls, state-threaded. -/
def recordAll (st : CollectorState) (calls : List RecordCall) : CollectorState :=
  calls.foldl
    (fun s c => (recordMetric s c.now c.agent c.metric_type c.value c.unit c.context).2) st

/-! ### Helper lemmas -/

/-- The enum round-trip: `MetricType(mt.value)` gives back `mt`. -/
theorem parseMetricType_metricTypeStr (mt : MetricType) :
    parseMetricType (metricTypeStr mt) = some mt := by
  cases mt <;> rfl

/-- Generalized-accumulator form of `groupMetrics`. -/
theorem groupMetrics_go (mt : MetricType) (ms : List RawMetric) :
    ∀ acc : List ℚ,
      ms.foldl
        (fun acc m =>
          match parseTypedValue m with
          | some (mt', v) => if mt' = mt then acc ++ [v] else acc
          | none => acc)
        acc
      = acc ++ ((ms.filterMap parseTypedValue).filter fun p => p.1 = mt).map (·.2) := by
  induction ms with
  | nil => intro acc; simp
  | cons m t ih =>
    intro acc
    rw [List.foldl_cons, List.filterMap_cons]
    cases hp : parseTypedValue m with
    | none => simpa using ih acc
    | some p =>
      obtain ⟨mt', v⟩ := p
      by_cases hmt : mt' = mt
      · subst hmt
        simp only [hp, List.filter_cons, decide_eq_true_eq, eq_self_iff_true, if_true, ite_true]
        rw [ih (acc ++ [v])]
        simp
      · simp only [hp, List.filter_cons, decide_eq_true_eq, if_neg hmt, ite_false]
        exact ih acc

/-- `grouped_metrics[mt]` is the value list of the parseable records of type
`mt`, in input order. -/
theorem groupMetrics_char (ms : List RawMetric) (mt : MetricType) :
    groupMetrics ms mt
      = ((ms.filterMap parseTypedValue).filter fun p => p.1 = mt).map (·.2) := by
  have h := groupMetrics_go mt ms []
  simpa [groupMetrics] using h

/-- Generalized-accumulator form of `detectAnomalies`. -/
theorem detectAnomalies_go (st : DetectorState) (ms : List RawMetric) :
    ∀ acc : List AnomalyResult,
      ms.foldl
        (fun acc m =>
          match parseTypedValue m with
          | some (mt, v) => acc ++ [detectSingle st mt v m.context]
          | none => acc)
        acc
      = acc ++ ms.filterMap
          (fun m => (parseTypedValue m).map fun p => detectSingle st p.1 p.2 m.context) := by
  induction ms with
  | nil => intro acc; simp
  | cons m t ih =>
    intro acc
    rw [List.foldl_cons, List.filterMap_cons]
    cases hp : parseTypedValue m with
    | none => simpa [hp] using ih acc
    | some p =>
      obtain ⟨mt, v⟩ := p
      simp only [hp, Option.map_some]
      rw [ih (acc ++ [detectSingle st mt v m.context])]
      simp

/-- `detect_anomalies` returns exactly one result per parseable record,
in input order. -/
theorem detectAnomalies_char (st : DetectorState) (ms : List RawMetric) :
    detectAnomalies st ms
      = ms.filterMap
          (fun m => (parseTypedValue m).map fun p => detectSingle st p.1 p.2 m.context) := by
  have h := detectAnomalies_go st ms []
  simpa [detectAnomalies] using h

/-- On fewer than 10 samples, or on a caught fit exception, the per-type
loop body reports `False`; it reports `True` exactly when the fit ran and
succeeded. -/
theorem trainType_snd (f : List ℚ → Option Model) (sq : ℚ → ℚ) (st : DetectorState)
    (mt : MetricType) (vs : List ℚ) :
    (trainType f sq st mt vs).2 =
      if vs.length < 10 then false else (f vs).isSome := by
  unfold trainType
  split
  · rfl
  · cases hf : f vs <;> simp [hf]

/-- The per-type loop body never touches another type's state. -/
theorem trainType_fst_other (f : List ℚ → Option Model) (sq : ℚ → ℚ) (st : DetectorState)
    (mt : MetricType) (vs : List ℚ) (mt' : MetricType) (h : mt' ≠ mt) :
    (trainType f sq st mt vs).1.baselines mt' = st.baselines mt' ∧
    (trainType f sq st mt vs).1.models mt' = st.models mt' ∧
    (trainType f sq st mt vs).1.is_trained mt' = st.is_trained mt' := by
  unfold trainType
  split
  · exact ⟨rfl, rfl, rfl⟩
  · cases hf : f vs <;> simp [hf, setAt, h]

/-- The baseline written by the per-type loop body: replaced by the fresh
statistics as soon as there are 10 samples, whether or not the fit then
succeeds. -/
theorem trainType_baselines_self (f : List ℚ → Option Model) (sq : ℚ → ℚ) (st : DetectorState)
    (mt : MetricType) (vs : List ℚ) :
    (trainType f sq st mt vs).1.baselines mt =
      if vs.length < 10 then st.baselines mt else some (computeBaseline sq vs) := by
  unfold trainType
  split
  · rfl
  · cases hf : f vs <;> simp [hf, setAt]

/-- The model stored by the per-type loop body: replaced only when the fit
succeeds. -/
theorem trainType_models_self (f : List ℚ → Option Model) (sq : ℚ → ℚ) (st : DetectorState)
    (mt : MetricType) (vs : List ℚ) :
    (trainType f sq st mt vs).1.models mt =
      if vs.length < 10 then st.models mt
      else (f vs).elim (st.models mt) some := by
  unfold trainType
  split
  · rfl
  · cases hf : f vs <;> simp [hf, setAt]

/-- The trained flag written by the per-type loop body: set only when the
fit succeeds. -/
theorem trainType_is_trained_self (f : List ℚ → Option Model) (sq : ℚ → ℚ) (st : DetectorState)
    (mt : MetricType) (vs : List ℚ) :
    (trainType f sq st mt vs).1.is_trained mt =
      if vs.length < 10 then st.is_trained mt
      else (f vs).elim (st.is_trained mt) (fun _ => true) := by
  unfold trainType
  split
  · rfl
  · cases hf : f vs <;> simp [hf, setAt]

/-- Folding the per-type loop over types other than `mt` leaves `mt`'s
state and result entry alone. -/
theorem foldl_trainStep_not_mem (f : List ℚ → Option Model) (sq : ℚ → ℚ)
    (g : MetricType → List ℚ) (mt : MetricType) :
    ∀ (l : List MetricType) (acc : DetectorState × (MetricType → Bool)), mt ∉ l →
      (l.foldl (trainStep f sq g) acc).1.baselines mt = acc.1.baselines mt ∧
      (l.foldl (trainStep f sq g) acc).1.models mt = acc.1.models mt ∧
      (l.foldl (trainStep f sq g) acc).1.is_trained mt = acc.1.is_trained mt ∧
      (l.foldl (trainStep f sq g) acc).2 mt = acc.2 mt := by
  intro l
  induction l with
  | nil => intro acc _; exact ⟨rfl, rfl, rfl, rfl⟩
  | cons h t ih =>
    intro acc hmem
    have hne : mt ≠ h := fun he => hmem (he ▸ List.mem_cons_self h t)
    have hnt : mt ∉ t := fun hm => hmem (List.mem_cons_of_mem _ hm)
    rw [List.foldl_cons]
    obtain ⟨b1, b2, b3, b4⟩ := ih (trainStep f sq g acc h) hnt
    obtain ⟨o1, o2, o3⟩ := trainType_fst_other f sq acc.1 h (g h) mt hne
    refine ⟨?_, ?_, ?_, ?_⟩
    · rw [b1]; exact o1
    · rw [b2]; exact o2
    · rw [b3]; exact o3
    · rw [b4]; simp [trainStep, setAt, hne]

/-- Folding the per-type loop over a duplicate-free list containing `mt`
gives `mt`'s state and result entry per its own sample list `g mt`. -/
theorem foldl_trainStep_mem (f : List ℚ → Option Model) (sq : ℚ → ℚ)
    (g : MetricType → List ℚ) (mt : MetricType) :
    ∀ (l : List MetricType) (acc : DetectorState × (MetricType → Bool)),
      mt ∈ l → l.Nodup →
      (l.foldl (trainStep f sq g) acc).1.baselines mt =
        (if (g mt).length < 10 then acc.1.baselines mt
         else some (computeBaseline sq (g mt))) ∧
      (l.foldl (trainStep f sq g) acc).1.models mt =
        (if (g mt).length < 10 then acc.1.models mt
         else (f (g mt)).elim (acc.1.models mt) some) ∧
      (l.foldl (trainStep f sq g) acc).1.is_trained mt =
        (if (g mt).length < 10 then acc.1.is_trained mt
         else (f (g mt)).elim (acc.1.is_trained mt) (fun _ => true)) ∧
      (l.foldl (trainStep f sq g) acc).2 mt =
        (if (g mt).length < 10 then false else (f (g mt)).isSome) := by
  intro l
  induction l with
  | nil => intro acc h; cases h
  | cons h t ih =>
    intro acc hmem hnd
    rw [List.foldl_cons]
    rcases List.mem_cons.mp hmem with he | hmt
    · subst he
      have hnt : mt ∉ t := (List.nodup_cons.mp hnd).1
      obtain ⟨b1, b2, b3, b4⟩ := foldl_trainStep_not_mem f sq g mt t (trainStep f sq g acc mt) hnt
      refine ⟨?_, ?_, ?_, ?_⟩
      · rw [b1]; simpa [trainStep] using trainType_baselines_self f sq acc.1 mt (g mt)
      · rw [b2]; simpa [trainStep] using trainType_models_self f sq acc.1 mt (g mt)
      · rw [b3]; simpa [trainStep] using trainType_is_trained_self f sq acc.1 mt (g mt)
      · rw [b4]
        have := trainType_snd f sq acc.1 mt (g mt)
        simpa [trainStep, setAt] using this
    · have hne : mt ≠ h := by
        rintro rfl
        exact (List.nodup_cons.mp hnd).1 hmt
      obtain ⟨i1, i2, i3, i4⟩ := ih (trainStep f sq g acc h) hmt (List.nodup_cons.mp hnd).2
      obtain ⟨o1, o2, o3⟩ := trainType_fst_other f sq acc.1 h (g h) mt hne
      have hstep1 : (trainStep f sq g acc h).1.baselines mt = acc.1.baselines mt := o1
      have hstep2 : (trainStep f sq g acc h).1.models mt = acc.1.models mt := o2
      have hstep3 : (trainStep f sq g acc h).1.is_trained mt = acc.1.is_trained mt := o3
      refine ⟨?_, ?_, ?_, ?_⟩
      · rw [i1, hstep1]
      · rw [i2, hstep2]
      · rw [i3, hstep3]
      · rw [i4]

/-- Full characterization of `train` at each metric type `mt`, covering the
empty-batch early return and the per-type loop: the result entry is `True`
exactly when there were at least 10 samples and the fit succeeded; the
baseline is replaced as soon as there are 10 samples (before the fit); the
model and the trained flag are replaced only when the fit succeeds. -/
theorem train_char (f : List ℚ → Option Model) (sq : ℚ → ℚ) (st : DetectorState)
    (ms : List RawMetric) (mt : MetricType) :
    (train f sq st ms).2 mt =
      (if (groupMetrics ms mt).length < 10 then false else (f (groupMetrics ms mt)).isSome) ∧
    (train f sq st ms).1.baselines mt =
      (if (groupMetrics ms mt).length < 10 then st.baselines mt
       else some (computeBaseline sq (groupMetrics ms mt))) ∧
    (train f sq st ms).1.models mt =
      (if (groupMetrics ms mt).length < 10 then st.models mt
       else (f (groupMetrics ms mt)).elim (st.models mt) some) ∧
    (train f sq st ms).1.is_trained mt =
      (if (groupMetrics ms mt).length < 10 then st.is_trained mt
       else (f (groupMetrics ms mt)).elim (st.is_trained mt) (fun _ => true)) := by
  unfold train
  by_cases hms : ms.isEmpty
  · have hnil : ms = [] := List.isEmpty_iff.mp hms
    subst hnil
    have hg : groupMetrics [] mt = [] := rfl
    simp [hg]
  · rw [if_neg hms]
    have hmem : mt ∈ allMetricTypes := by cases mt <;> simp [allMetricTypes]
    have hnd : allMetricTypes.Nodup := by decide
    obtain ⟨c1, c2, c3, c4⟩ :=
      foldl_trainStep_mem f sq (groupMetrics ms) mt allMetricTypes
        (st, fun _ => false) hmem hnd
    exact ⟨c4, c1, c2, c3⟩

/-- The eviction step of `record_metric` is the same as unconditionally
keeping the last `n` elements (in ℕ, `l.length - n = 0` when the list is
not over the bound). -/
theorem trim_eq_drop {α : Type} (n : Nat) (l : List α) :
    (if l.length > n then l.drop (l.length - n) else l) = l.drop (l.length - n) := by
  split
  · rfl
  · rename_i h
    have h0 : l.length - n = 0 := by omega
    rw [h0, List.drop_zero]

/-- Keeping the last `n` elements, appending one, and keeping the last `n`
again is the same as appending first and keeping the last `n` once. -/
theorem lastN_absorb {α : Type} (n : Nat) (l : List α) (r : α) :
    (l.drop (l.length - n) ++ [r]).drop ((l.drop (l.length - n) ++ [r]).length - n)
      = (l ++ [r]).drop ((l ++ [r]).length - n) := by
  rcases Nat.eq_zero_or_pos n with hn | hn
  · subst hn
    have e1 : (l.drop (l.length - 0) ++ [r]).length - 0 = (l.drop (l.length - 0) ++ [r]).length :=
      rfl
    have e2 : (l ++ [r]).length - 0 = (l ++ [r]).length := rfl
    rw [e1, e2, List.drop_length, List.drop_length]
  · by_cases hlen : l.length ≤ n
    · have e1 : l.length - n = 0 := by omega
      rw [e1, List.drop_zero]
    · have hgt : n < l.length := by omega
      have e1 : (l.drop (l.length - n) ++ [r]).length - n = 1 := by
        simp only [List.length_append, List.length_drop, List.length_cons, List.length_nil]
        omega
      have e2 : (l ++ [r]).length - n = (l.length - n) + 1 := by
        simp only [List.length_append, List.length_cons, List.length_nil]
        omega
      rw [e1, e2, List.drop_append_eq_append_drop, List.drop_append_eq_append_drop,
        List.drop_drop]
      have e3 : 1 - (l.drop (l.length - n)).length = 0 := by
        simp only [List.length_drop]
        omega
      have e4 : l.length - n + 1 - l.length = 0 := by omega
      rw [e3, e4, List.drop_zero]

/-- `record_metric` never changes the configured bound. -/
theorem recordAll_max (calls : List RecordCall) :
    ∀ st : CollectorState,
      (recordAll st calls).max_records_per_agent = st.max_records_per_agent := by
  induction calls with
  | nil => intro st; rfl
  | cons c t ih =>
    intro st
    rw [recordAll, List.foldl_cons]
    exact ih _

/-- `record_metric` leaves other agents' record lists alone. -/
theorem recordMetric_metrics_other (st : CollectorState) (now : ℚ)
    (agent_slug metric_type : String) (value : ℚ) (unit : String) (context : Ctx)
    (a : String) (h : a ≠ agent_slug) :
    (recordMetric st now agent_slug metric_type value unit context).2.metrics a
      = st.metrics a := by
  simp [recordMetric, h]

/-- The record list `record_metric` leaves for the written agent:
append, then keep the last `max_records_per_agent` records. -/
theorem recordMetric_metrics_self (st : CollectorState) (now : ℚ)
    (agent_slug metric_type : String) (value : ℚ) (unit : String) (context : Ctx) :
    (recordMetric st now agent_slug metric_type value unit context).2.metrics agent_slug
      = (st.metrics agent_slug
          ++ [(⟨agent_slug, metric_type, value, unit, context, now⟩ : MetricRecord)]).drop
          ((st.metrics agent_slug
            ++ [(⟨agent_slug, metric_type, value, unit, context, now⟩ : MetricRecord)]).length
            - st.max_records_per_agent) := by
  simp only [recordMetric, ite_true, eq_self_iff_true, if_true]
  exact trim_eq_drop st.max_records_per_agent _

/-- After any sequence of `record_metric` calls on a fresh collector, the
list stored for agent `a` is the suffix of the records produced for `a`
(in call order) that fits the bound. -/
theorem recordAll_metrics (maxR : Nat) (a : String) (calls : List RecordCall) :
    (recordAll (collectorInit maxR) calls).metrics a
      = ((calls.filter fun c => c.agent = a).map RecordCall.toRecord).drop
          (((calls.filter fun c => c.agent = a).map RecordCall.toRecord).length - maxR) := by
  induction calls using List.reverseRecOn with
  | nil => simp [recordAll, collectorInit]
  | append_singleton t c ih =>
    have hfold : recordAll (collectorInit maxR) (t ++ [c])
        = (recordMetric (recordAll (collectorInit maxR) t)
            c.now c.agent c.metric_type c.value c.unit c.context).2 := by
      rw [recordAll, List.foldl_append, List.foldl_cons, List.foldl_nil]
      rfl
    have hmax : (recordAll (collectorInit maxR) t).max_records_per_agent = maxR :=
      recordAll_max t (collectorInit maxR)
    by_cases hag : c.agent = a
    · subst hag
      rw [hfold, recordMetric_metrics_self, ih, hmax]
      have habs := lastN_absorb maxR
        ((t.filter fun c' => c'.agent = c.agent).map RecordCall.toRecord)
        (⟨c.agent, c.metric_type, c.value, c.unit, c.context, c.now⟩ : MetricRecord)
      rw [habs]
      have hfilter : ((t ++ [c]).filter fun c' => c'.agent = c.agent)
          = (t.filter fun c' => c'.agent = c.agent) ++ [c] := by
        rw [List.filter_append]
        simp
      rw [hfilter, List.map_append]
      rfl
    · rw [hfold,
        recordMetric_metrics_other _ _ _ _ _ _ _ a (fun he => hag he.symm), ih]
      have hfilter : ((t ++ [c]).filter fun c' => c'.agent = a)
          = t.filter fun c' => c'.agent = a := by
        rw [List.filter_append]
        simp [hag]
      rw [hfilter]

/-- The untrained branch of `_detect_single`, written out. -/
theorem detectSingle_untrained (st : DetectorState) (mt : MetricType) (v : ℚ) (ctx : Ctx)
    (h : st.is_trained mt = false) :
    detectSingle st mt v ctx =
      ⟨mt, v, (st.baselines mt).elim 0 Baseline.mean,
        (if checkThresholdViolation mt v then (-1 : ℚ) else 1),
        checkThresholdViolation mt v,
        getSuggestedAction (metricTypeStr mt)
          (if checkThresholdViolation mt v then (-1 : ℚ) else 1) v
          ((st.baselines mt).elim 0 Baseline.mean),
        1/2, ctx⟩ := by
  unfold detectSingle
  rw [if_pos (by simp [h])]
  cases hb : st.baselines mt <;> simp [hb]

/-! ### Claim theorems -/

/-- C4: `get_suggested_action` returns NO_ACTION whenever the anomaly score
is positive, before any metric-specific logic, and for non-positive scores
it implements exactly the spec's per-type remediation table (with
INVESTIGATE for an unknown metric-type string). -/
theorem C4_suggested_action_matches_spec_table
    (metric_type : String) (anomaly_score current_value expected_value : ℚ) :
    getSuggestedAction metric_type anomaly_score current_value expected_value
      = specRemediationTable metric_type anomaly_score current_value expected_value := by
  unfold getSuggestedAction specRemediationTable
  by_cases hs : anomaly_score > 0
  · rw [if_pos hs, if_pos hs]
  · rw [if_neg hs, if_neg hs]
    cases parseMetricType metric_type with
    | none => rfl
    | some mt =>
      cases mt <;> dsimp only
      · by_cases h1 : current_value < 6
        · simp [h1]
        · have h6 : 6 ≤ current_value := not_lt.mp h1
          by_cases h2 : current_value < 7 <;> simp [h1, h2, h6]
      · by_cases h1 : current_value > 3/10
        · simp [h1]
        · have h1' : current_value ≤ 3/10 := not_lt.mp h1
          by_cases h2 : current_value > 3/20 <;> simp [h1, h2, h1']
      · rw [mul_comm expected_value 3, mul_comm expected_value (3/2),
          mul_comm expected_value (3/10)]
        by_cases h1 : current_value > 3 * expected_value
        · simp [h1]
        · have h1' : current_value ≤ 3 * expected_value := not_lt.mp h1
          by_cases h2 : 3/2 * expected_value < current_value <;> simp [h1, h2, h1']
      · rw [mul_comm expected_value 2, mul_comm expected_value (3/10)]
      · rw [mul_comm expected_value (1/2), mul_comm expected_value 2]

/-- C3: training with fewer than 10 samples for an already-trained metric
type reports failure for that type but leaves its stored model, baseline
and trained flag untouched. -/
theorem C3_insufficient_data_keeps_trained_state
    (f : List ℚ → Option Model) (sq : ℚ → ℚ) (st : DetectorState)
    (ms : List RawMetric) (mt : MetricType)
    (hprev : st.is_trained mt = true)
    (hlen : (groupMetrics ms mt).length < 10) :
    (train f sq st ms).2 mt = false ∧
    (train f sq st ms).1.models mt = st.models mt ∧
    (train f sq st ms).1.baselines mt = st.baselines mt ∧
    (train f sq st ms).1.is_trained mt = true := by
  obtain ⟨c1, c2, c3, c4⟩ := train_char f sq st ms mt
  rw [if_pos hlen] at c1 c2 c3 c4
  exact ⟨c1, c3, c2, c4.trans hprev⟩

/-- C6: from an untrained state, training with exactly 9 samples of a type
reports failure and leaves it untrained; with exactly 10 samples (and the
fit succeeding, as it always does on well-formed numeric data) it reports
success and the type becomes trained. -/
theorem C6_ten_sample_training_threshold
    (f : List ℚ → Option Model) (sq : ℚ → ℚ) (st : DetectorState)
    (ms9 ms10 : List RawMetric) (mt : MetricType)
    (hprev : st.is_trained mt = false)
    (h9 : (groupMetrics ms9 mt).length = 9)
    (h10 : (groupMetrics ms10 mt).length = 10)
    (hfit : (f (groupMetrics ms10 mt)).isSome = true) :
    (train f sq st ms9).2 mt = false ∧
    (train f sq st ms9).1.is_trained mt = false ∧
    (train f sq st ms10).2 mt = true ∧
    (train f sq st ms10).1.is_trained mt = true := by
  obtain ⟨a1, -, -, a4⟩ := train_char f sq st ms9 mt
  obtain ⟨b1, -, -, b4⟩ := train_char f sq st ms10 mt
  have l9 : (groupMetrics ms9 mt).length < 10 := by omega
  have l10 : ¬ (groupMetrics ms10 mt).length < 10 := by omega
  rw [if_pos l9] at a1 a4
  rw [if_neg l10] at b1 b4
  obtain ⟨m, hm⟩ := Option.isSome_iff_exists.mp hfit
  refine ⟨a1, a4.trans hprev, ?_, ?_⟩
  · rw [b1, hm]
    rfl
  · rw [b4, hm]
    rfl

/-- C1 (amended): when fitting raises for a metric type with at least 10
samples, `train` reports failure for that type and leaves its model and
trained flag untouched — but the baseline for that type has already been
replaced with the fresh statistics of the new batch (the baseline write
precedes the fit), so the model/baseline pair is not replaced atomically. -/
theorem C1_fit_failure_keeps_model_but_replaces_baseline
    (f : List ℚ → Option Model) (sq : ℚ → ℚ) (st : DetectorState)
    (ms : List RawMetric) (mt : MetricType)
    (hlen : 10 ≤ (groupMetrics ms mt).length)
    (hfail : f (groupMetrics ms mt) = none) :
    (train f sq st ms).2 mt = false ∧
    (train f sq st ms).1.models mt = st.models mt ∧
    (train f sq st ms).1.is_trained mt = st.is_trained mt ∧
    (train f sq st ms).1.baselines mt = some (computeBaseline sq (groupMetrics ms mt)) := by
  obtain ⟨c1, c2, c3, c4⟩ := train_char f sq st ms mt
  have hl : ¬ (groupMetrics ms mt).length < 10 := by omega
  rw [if_neg hl] at c1 c2 c3 c4
  rw [hfail] at c1 c3 c4
  exact ⟨by simpa using c1, by simpa using c3, by simpa using c4, c2⟩

/-- C8: `detect_anomalies` silently skips records with an unknown
metric-type string or a non-coercible value and returns exactly one result
per parseable record, in order; `train` groups exactly the parseable
records by type.  Both are total functions of their input — no malformed
record can make them raise. -/
theorem C8_malformed_records_skipped
    (st : DetectorState) (ms : List RawMetric) (mt : MetricType) :
    detectAnomalies st ms
      = ms.filterMap
          (fun m => (parseTypedValue m).map fun p => detectSingle st p.1 p.2 m.context) ∧
    groupMetrics ms mt
      = ((ms.filterMap parseTypedValue).filter fun p => p.1 = mt).map (·.2) :=
  ⟨detectAnomalies_char st ms, groupMetrics_char ms mt⟩

/-- C5: for an untrained metric type, single-value detection uses the
fixed threshold table — anomalous exactly when the value leaves the
type's [min, max] range, score −1/+1, confidence exactly 0.5; in
particular API_FAILURE_RATE = 0.5 on a fresh detector is anomalous with
confidence 0.5 and action RESTART. -/
theorem C5_untrained_threshold_fallback
    (st : DetectorState) (mt : MetricType) (v : ℚ) (ctx : Ctx)
    (h : st.is_trained mt = false) :
    ((detectSingle st mt v ctx).is_anomaly = true ↔
      (v < (METRIC_THRESHOLDS mt).min ∨ v > (METRIC_THRESHOLDS mt).max)) ∧
    (detectSingle st mt v ctx).anomaly_score
      = (if checkThresholdViolation mt v then (-1 : ℚ) else 1) ∧
    (detectSingle st mt v ctx).confidence = 1/2 ∧
    (detectSingle detectorInit .api_failure_rate (1/2) []).is_anomaly = true ∧
    (detectSingle detectorInit .api_failure_rate (1/2) []).confidence = 1/2 ∧
    (detectSingle detectorInit .api_failure_rate (1/2) []).suggested_action = .restart := by
  have hviol : checkThresholdViolation .api_failure_rate (1/2) = true := by
    simp only [checkThresholdViolation, METRIC_THRESHOLDS]
    norm_num
  have hinit := detectSingle_untrained detectorInit .api_failure_rate (1/2) [] rfl
  rw [hviol, if_pos rfl] at hinit
  have hact : getSuggestedAction (metricTypeStr .api_failure_rate) (-1) (1/2) 0
      = .restart := by
    unfold getSuggestedAction
    rw [if_neg (by norm_num), parseMetricType_metricTypeStr]
    norm_num
  refine ⟨?_, ?_, ?_, ?_, ?_, ?_⟩
  · rw [detectSingle_untrained st mt v ctx h]
    simp [checkThresholdViolation]
  · rw [detectSingle_untrained st mt v ctx h]
  · rw [detectSingle_untrained st mt v ctx h]
  · rw [hinit]
  · rw [hinit]
  · rw [hinit]
    exact hact

/-- C10: for a metric type with no stored baseline (and so untrained),
the fallback detection result carries expected_value = 0, and its
remediation decision is made against an expected value of zero. -/
theorem C10_no_baseline_expected_value_zero
    (st : DetectorState) (mt : MetricType) (v : ℚ) (ctx : Ctx)
    (ht : st.is_trained mt = false) (hb : st.baselines mt = none) :
    (detectSingle st mt v ctx).expected_value = 0 ∧
    (detectSingle st mt v ctx).suggested_action
      = getSuggestedAction (metricTypeStr mt)
          (if checkThresholdViolation mt v then (-1 : ℚ) else 1) v 0 := by
  rw [detectSingle_untrained st mt v ctx ht, hb]
  exact ⟨rfl, rfl⟩

/-- C2: recording `max_records_per_agent + k` observations for one agent
(with k > 0) leaves exactly `max_records_per_agent` records for it, namely
the most recent ones in unchanged insertion order — eviction is strictly
FIFO, the oldest k are discarded. -/
theorem C2_fifo_eviction_keeps_last_max
    (maxR k : Nat) (a : String) (calls : List RecordCall)
    (hk : 0 < k)
    (hlen : (calls.filter fun c => c.agent = a).length = maxR + k) :
    ((recordAll (collectorInit maxR) calls).metrics a).length = maxR ∧
    (recordAll (collectorInit maxR) calls).metrics a
      = ((calls.filter fun c => c.agent = a).map RecordCall.toRecord).drop k := by
  have h := recordAll_metrics maxR a calls
  have hL : ((calls.filter fun c => c.agent = a).map RecordCall.toRecord).length
      = maxR + k := by
    rw [List.length_map, hlen]
  rw [hL] at h
  have hk2 : maxR + k - maxR = k := by omega
  rw [hk2] at h
  refine ⟨?_, h⟩
  rw [h, List.length_drop, hL]
  omega

/-- C7: `calculate_baseline` over a window with no matching records
returns count = 0, every statistic 0.0 and the explicit
"No metrics found" error marker; with matching records the marker is
absent and the count positive, so the two cases are distinguishable. -/
theorem C7_empty_baseline_marked
    (sq : ℚ → ℚ) (st st2 : CollectorState) (a a2 mt mt2 : String)
    (hours hours2 now now2 : ℚ)
    (hempty : getAgentMetrics st a hours (some mt) now = [])
    (hne : getAgentMetrics st2 a2 hours2 (some mt2) now2 ≠ []) :
    calculateBaseline sq st a mt hours now
      = ⟨0, 0, 0, 0, 0, 0, some "No metrics found"⟩ ∧
    (calculateBaseline sq st2 a2 mt2 hours2 now2).error = none ∧
    (calculateBaseline sq st2 a2 mt2 hours2 now2).count ≠ 0 := by
  refine ⟨?_, ?_, ?_⟩
  · unfold calculateBaseline
    rw [hempty]
    rfl
  · unfold calculateBaseline
    rw [if_neg (by simp [hne])]
  · unfold calculateBaseline
    rw [if_neg (by simp [hne])]
    simp only [List.length_map, ne_eq, List.length_eq_zero]
    exact hne

/-- C9: the record produced by `record_metric` appears, with the same
agent id, metric type, value, unit and context, in the next
`get_agent_metrics` call for that agent whose window covers the record's
timestamp (bound ≥ 1, no type filter). -/
theorem C9_record_roundtrip
    (st : CollectorState) (a metric_type : String) (value : ℚ) (unit : String)
    (context : Ctx) (t0 hours now : ℚ)
    (hmax : 1 ≤ st.max_records_per_agent)
    (hcov : now - hours ≤ t0) :
    toDict (recordMetric st t0 a metric_type value unit context).1
      ∈ getAgentMetrics (recordMetric st t0 a metric_type value unit context).2
          a hours none now := by
  have hfst : (recordMetric st t0 a metric_type value unit context).1
      = (⟨a, metric_type, value, unit, context, t0⟩ : MetricRecord) := rfl
  have hmem : (⟨a, metric_type, value, unit, context, t0⟩ : MetricRecord)
      ∈ (recordMetric st t0 a metric_type value unit context).2.metrics a := by
    rw [recordMetric_metrics_self]
    rw [List.drop_append_eq_append_drop]
    have h0 : (st.metrics a
        ++ [(⟨a, metric_type, value, unit, context, t0⟩ : MetricRecord)]).length
          - st.max_records_per_agent - (st.metrics a).length = 0 := by
      simp only [List.length_append, List.length_cons, List.length_nil]
      omega
    rw [h0, List.drop_zero]
    exact List.mem_append.mpr (Or.inr (List.mem_singleton.mpr rfl))
  rw [hfst]
  unfold getAgentMetrics
  apply List.mem_map.mpr
  refine ⟨⟨a, metric_type, value, unit, context, t0⟩, ?_, rfl⟩
  apply List.mem_filter.mpr
  exact ⟨hmem, by simpa using hcov⟩

/-- C1 (counterexample to the claim as stated): from a detector whose
qa_score type was trained with baseline mean 5, a `train` call with ten
qa_score samples of value 7 whose fit raises reports failure — yet the
stored baseline for qa_score is now the fresh statistics of the failed
batch (mean 7), not the pre-call baseline (mean 5): the failure leaves a
new baseline paired with the old model. -/
theorem C1_counterexample_baseline_replaced_on_fit_failure :
    (train (fun _ => none) id
        (⟨fun _ => some ⟨fun _ => -1, fun _ => 0⟩, fun _ => some ⟨5, 0, 5, 5, 5⟩,
          fun _ => true⟩ : DetectorState)
        [⟨"qa_score", some 7, []⟩, ⟨"qa_score", some 7, []⟩, ⟨"qa_score", some 7, []⟩,
         ⟨"qa_score", some 7, []⟩, ⟨"qa_score", some 7, []⟩, ⟨"qa_score", some 7, []⟩,
         ⟨"qa_score", some 7, []⟩, ⟨"qa_score", some 7, []⟩, ⟨"qa_score", some 7, []⟩,
         ⟨"qa_score", some 7, []⟩]).2 MetricType.qa_score = false ∧
    (train (fun _ => none) id
        (⟨fun _ => some ⟨fun _ => -1, fun _ => 0⟩, fun _ => some ⟨5, 0, 5, 5, 5⟩,
          fun _ => true⟩ : DetectorState)
        [⟨"qa_score", some 7, []⟩, ⟨"qa_score", some 7, []⟩, ⟨"qa_score", some 7, []⟩,
         ⟨"qa_score", some 7, []⟩, ⟨"qa_score", some 7, []⟩, ⟨"qa_score", some 7, []⟩,
         ⟨"qa_score", some 7, []⟩, ⟨"qa_score", some 7, []⟩, ⟨"qa_score", some 7, []⟩,
         ⟨"qa_score", some 7, []⟩]).1.baselines MetricType.qa_score
      = some ⟨7, 0, 7, 7, 7⟩ ∧
    some (⟨7, 0, 7, 7, 7⟩ : Baseline) ≠ some (⟨5, 0, 5, 5, 5⟩ : Baseline) := by
  have hg : groupMetrics
      [⟨"qa_score", some 7, []⟩, ⟨"qa_score", some 7, []⟩, ⟨"qa_score", some 7, []⟩,
       ⟨"qa_score", some 7, []⟩, ⟨"qa_score", some 7, []⟩, ⟨"qa_score", some 7, []⟩,
       ⟨"qa_score", some 7, []⟩, ⟨"qa_score", some 7, []⟩, ⟨"qa_score", some 7, []⟩,
       ⟨"qa_score", some 7, []⟩] MetricType.qa_score
      = [7, 7, 7, 7, 7, 7, 7, 7, 7, 7] := rfl
  have hcb : computeBaseline id [7, 7, 7, 7, 7, 7, 7, 7, 7, 7] = ⟨7, 0, 7, 7, 7⟩ := by
    norm_num [computeBaseline, listMean, listSum, listStd, listMin, listMax, listMedian,
      sortAsc, insertSorted, List.foldl, List.foldr, List.map, List.getD]
  obtain ⟨c1, c2, -, -⟩ := train_char (fun _ => none) id
    (⟨fun _ => some ⟨fun _ => -1, fun _ => 0⟩, fun _ => some ⟨5, 0, 5, 5, 5⟩,
      fun _ => true⟩ : DetectorState)
    [⟨"qa_score", some 7, []⟩, ⟨"qa_score", some 7, []⟩, ⟨"qa_score", some 7, []⟩,
     ⟨"qa_score", some 7, []⟩, ⟨"qa_score", some 7, []⟩, ⟨"qa_score", some 7, []⟩,
     ⟨"qa_score", some 7, []⟩, ⟨"qa_score", some 7, []⟩, ⟨"qa_score", some 7, []⟩,
     ⟨"qa_score", some 7, []⟩] MetricType.qa_score
  rw [hg] at c1 c2
  have hlen : ¬ ([7, 7, 7, 7, 7, 7, 7, 7, 7, 7] : List ℚ).length < 10 := by
    simp
  rw [if_neg hlen] at c1 c2
  refine ⟨by simpa using c1, ?_, ?_⟩
  · rw [c2, hcb]
  · simp only [ne_eq, Option.some.injEq, Baseline.mk.injEq, not_and]
    intro h7
    exfalso
    norm_num at h7

/-! ### Witnesses -/

/-- Witness for C1's amended theorem at a concrete failing fit. -/
theorem C1_fit_failure_witness :
    10 ≤ (groupMetrics
        [⟨"qa_score", some 7, []⟩, ⟨"qa_score", some 7, []⟩, ⟨"qa_score", some 7, []⟩,
         ⟨"qa_score", some 7, []⟩, ⟨"qa_score", some 7, []⟩, ⟨"qa_score", some 7, []⟩,
         ⟨"qa_score", some 7, []⟩, ⟨"qa_score", some 7, []⟩, ⟨"qa_score", some 7, []⟩,
         ⟨"qa_score", some 7, []⟩] MetricType.qa_score).length ∧
    ((train (fun _ => none) id detectorInit
        [⟨"qa_score", some 7, []⟩, ⟨"qa_score", some 7, []⟩, ⟨"qa_score", some 7, []⟩,
         ⟨"qa_score", some 7, []⟩, ⟨"qa_score", some 7, []⟩, ⟨"qa_score", some 7, []⟩,
         ⟨"qa_score", some 7, []⟩, ⟨"qa_score", some 7, []⟩, ⟨"qa_score", some 7, []⟩,
         ⟨"qa_score", some 7, []⟩]).2 MetricType.qa_score = false ∧
     (train (fun _ => none) id detectorInit
        [⟨"qa_score", some 7, []⟩, ⟨"qa_score", some 7, []⟩, ⟨"qa_score", some 7, []⟩,
         ⟨"qa_score", some 7, []⟩, ⟨"qa_score", some 7, []⟩, ⟨"qa_score", some 7, []⟩,
         ⟨"qa_score", some 7, []⟩, ⟨"qa_score", some 7, []⟩, ⟨"qa_score", some 7, []⟩,
         ⟨"qa_score", some 7, []⟩]).1.models MetricType.qa_score
       = detectorInit.models MetricType.qa_score ∧
     (train (fun _ => none) id detectorInit
        [⟨"qa_score", some 7, []⟩, ⟨"qa_score", some 7, []⟩, ⟨"qa_score", some 7, []⟩,
         ⟨"qa_score", some 7, []⟩, ⟨"qa_score", some 7, []⟩, ⟨"qa_score", some 7, []⟩,
         ⟨"qa_score", some 7, []⟩, ⟨"qa_score", some 7, []⟩, ⟨"qa_score", some 7, []⟩,
         ⟨"qa_score", some 7, []⟩]).1.is_trained MetricType.qa_score
       = detectorInit.is_trained MetricType.qa_score ∧
     (train (fun _ => none) id detectorInit
        [⟨"qa_score", some 7, []⟩, ⟨"qa_score", some 7, []⟩, ⟨"qa_score", some 7, []⟩,
         ⟨"qa_score", some 7, []⟩, ⟨"qa_score", some 7, []⟩, ⟨"qa_score", some 7, []⟩,
         ⟨"qa_score", some 7, []⟩, ⟨"qa_score", some 7, []⟩, ⟨"qa_score", some 7, []⟩,
         ⟨"qa_score", some 7, []⟩]).1.baselines MetricType.qa_score
       = some (computeBaseline id
           (groupMetrics
             [⟨"qa_score", some 7, []⟩, ⟨"qa_score", some 7, []⟩, ⟨"qa_score", some 7, []⟩,
              ⟨"qa_score", some 7, []⟩, ⟨"qa_score", some 7, []⟩, ⟨"qa_score", some 7, []⟩,
              ⟨"qa_score", some 7, []⟩, ⟨"qa_score", some 7, []⟩, ⟨"qa_score", some 7, []⟩,
              ⟨"qa_score", some 7, []⟩] MetricType.qa_score))) :=
  ⟨by decide,
   C1_fit_failure_keeps_model_but_replaces_baseline (fun _ => none) id detectorInit
     _ MetricType.qa_score (by decide) rfl⟩

/-- Witness for C2 at `max_records_per_agent = 2`, `k = 1`. -/
theorem C2_fifo_witness :
    0 < 1 ∧
    (([(⟨"a", 0, "qa_score", 1, "", []⟩ : RecordCall),
       ⟨"a", 0, "qa_score", 2, "", []⟩,
       ⟨"a", 0, "qa_score", 3, "", []⟩].filter fun c => c.agent = "a").length = 2 + 1) ∧
    (((recordAll (collectorInit 2)
        [(⟨"a", 0, "qa_score", 1, "", []⟩ : RecordCall),
         ⟨"a", 0, "qa_score", 2, "", []⟩,
         ⟨"a", 0, "qa_score", 3, "", []⟩]).metrics "a").length = 2 ∧
     (recordAll (collectorInit 2)
        [(⟨"a", 0, "qa_score", 1, "", []⟩ : RecordCall),
         ⟨"a", 0, "qa_score", 2, "", []⟩,
         ⟨"a", 0, "qa_score", 3, "", []⟩]).metrics "a"
       = (([(⟨"a", 0, "qa_score", 1, "", []⟩ : RecordCall),
            ⟨"a", 0, "qa_score", 2, "", []⟩,
            ⟨"a", 0, "qa_score", 3, "", []⟩].filter fun c => c.agent = "a").map
              RecordCall.toRecord).drop 1) :=
  ⟨by decide, by decide,
   C2_fifo_eviction_keeps_last_max 2 1 "a"
     [⟨"a", 0, "qa_score", 1, "", []⟩, ⟨"a", 0, "qa_score", 2, "", []⟩,
      ⟨"a", 0, "qa_score", 3, "", []⟩] (by decide) (by decide)⟩

/-- Witness for C3 at a concrete already-trained state and an empty batch. -/
theorem C3_insufficient_data_witness :
    ((⟨fun _ => none, fun _ => some ⟨5, 0, 5, 5, 5⟩, fun _ => true⟩ : DetectorState).is_trained
        MetricType.qa_score = true) ∧
    ((groupMetrics [] MetricType.qa_score).length < 10) ∧
    ((train (fun _ => none) id
        (⟨fun _ => none, fun _ => some ⟨5, 0, 5, 5, 5⟩, fun _ => true⟩ : DetectorState) []).2
        MetricType.qa_score = false ∧
     (train (fun _ => none) id
        (⟨fun _ => none, fun _ => some ⟨5, 0, 5, 5, 5⟩, fun _ => true⟩ : DetectorState) []).1.models
        MetricType.qa_score
       = (⟨fun _ => none, fun _ => some ⟨5, 0, 5, 5, 5⟩, fun _ => true⟩ : DetectorState).models
          MetricType.qa_score ∧
     (train (fun _ => none) id
        (⟨fun _ => none, fun _ => some ⟨5, 0, 5, 5, 5⟩, fun _ => true⟩ : DetectorState)
        []).1.baselines MetricType.qa_score
       = (⟨fun _ => none, fun _ => some ⟨5, 0, 5, 5, 5⟩, fun _ => true⟩ : DetectorState).baselines
          MetricType.qa_score ∧
     (train (fun _ => none) id
        (⟨fun _ => none, fun _ => some ⟨5, 0, 5, 5, 5⟩, fun _ => true⟩ : DetectorState)
        []).1.is_trained MetricType.qa_score = true) :=
  ⟨rfl, by decide,
   C3_insufficient_data_keeps_trained_state (fun _ => none) id
     (⟨fun _ => none, fun _ => some ⟨5, 0, 5, 5, 5⟩, fun _ => true⟩ : DetectorState)
     [] MetricType.qa_score rfl (by decide)⟩

/-- Witness for C5 at the fresh detector and qa_score value 0. -/
theorem C5_untrained_witness :
    (detectorInit.is_trained MetricType.qa_score = false) ∧
    (((detectSingle detectorInit MetricType.qa_score 0 []).is_anomaly = true ↔
        (0 < (METRIC_THRESHOLDS MetricType.qa_score).min ∨
          0 > (METRIC_THRESHOLDS MetricType.qa_score).max)) ∧
     (detectSingle detectorInit MetricType.qa_score 0 []).anomaly_score
       = (if checkThresholdViolation MetricType.qa_score 0 then (-1 : ℚ) else 1) ∧
     (detectSingle detectorInit MetricType.qa_score 0 []).confidence = 1/2 ∧
     (detectSingle detectorInit .api_failure_rate (1/2) []).is_anomaly = true ∧
     (detectSingle detectorInit .api_failure_rate (1/2) []).confidence = 1/2 ∧
     (detectSingle detectorInit .api_failure_rate (1/2) []).suggested_action = .restart) :=
  ⟨rfl, C5_untrained_threshold_fallback detectorInit MetricType.qa_score 0 [] rfl⟩

/-- Witness for C6 with nine and ten qa_score samples of value 5. -/
theorem C6_ten_sample_witness :
    (detectorInit.is_trained MetricType.qa_score = false) ∧
    ((groupMetrics
        [⟨"qa_score", some 5, []⟩, ⟨"qa_score", some 5, []⟩, ⟨"qa_score", some 5, []⟩,
         ⟨"qa_score", some 5, []⟩, ⟨"qa_score", some 5, []⟩, ⟨"qa_score", some 5, []⟩,
         ⟨"qa_score", some 5, []⟩, ⟨"qa_score", some 5, []⟩, ⟨"qa_score", some 5, []⟩]
        MetricType.qa_score).length = 9) ∧
    ((groupMetrics
        [⟨"qa_score", some 5, []⟩, ⟨"qa_score", some 5, []⟩, ⟨"qa_score", some 5, []⟩,
         ⟨"qa_score", some 5, []⟩, ⟨"qa_score", some 5, []⟩, ⟨"qa_score", some 5, []⟩,
         ⟨"qa_score", some 5, []⟩, ⟨"qa_score", some 5, []⟩, ⟨"qa_score", some 5, []⟩,
         ⟨"qa_score", some 5, []⟩] MetricType.qa_score).length = 10) ∧
    ((train (fun _ => some ⟨fun _ => -1, fun _ => 0⟩) id detectorInit
        [⟨"qa_score", some 5, []⟩, ⟨"qa_score", some 5, []⟩, ⟨"qa_score", some 5, []⟩,
         ⟨"qa_score", some 5, []⟩, ⟨"qa_score", some 5, []⟩, ⟨"qa_score", some 5, []⟩,
         ⟨"qa_score", some 5, []⟩, ⟨"qa_score", some 5, []⟩, ⟨"qa_score", some 5, []⟩]).2
        MetricType.qa_score = false ∧
     (train (fun _ => some ⟨fun _ => -1, fun _ => 0⟩) id detectorInit
        [⟨"qa_score", some 5, []⟩, ⟨"qa_score", some 5, []⟩, ⟨"qa_score", some 5, []⟩,
         ⟨"qa_score", some 5, []⟩, ⟨"qa_score", some 5, []⟩, ⟨"qa_score", some 5, []⟩,
         ⟨"qa_score", some 5, []⟩, ⟨"qa_score", some 5, []⟩,
         ⟨"qa_score", some 5, []⟩]).1.is_trained MetricType.qa_score = false ∧
     (train (fun _ => some ⟨fun _ => -1, fun _ => 0⟩) id detectorInit
        [⟨"qa_score", some 5, []⟩, ⟨"qa_score", some 5, []⟩, ⟨"qa_score", some 5, []⟩,
         ⟨"qa_score", some 5, []⟩, ⟨"qa_score", some 5, []⟩, ⟨"qa_score", some 5, []⟩,
         ⟨"qa_score", some 5, []⟩, ⟨"qa_score", some 5, []⟩, ⟨"qa_score", some 5, []⟩,
         ⟨"qa_score", some 5, []⟩]).2 MetricType.qa_score = true ∧
     (train (fun _ => some ⟨fun _ => -1, fun _ => 0⟩) id detectorInit
        [⟨"qa_score", some 5, []⟩, ⟨"qa_score", some 5, []⟩, ⟨"qa_score", some 5, []⟩,
         ⟨"qa_score", some 5, []⟩, ⟨"qa_score", some 5, []⟩, ⟨"qa_score", some 5, []⟩,
         ⟨"qa_score", some 5, []⟩, ⟨"qa_score", some 5, []⟩, ⟨"qa_score", some 5, []⟩,
         ⟨"qa_score", some 5, []⟩]).1.is_trained MetricType.qa_score = true) :=
  ⟨rfl, by decide, by decide,
   C6_ten_sample_training_threshold (fun _ => some ⟨fun _ => -1, fun _ => 0⟩) id detectorInit
     _ _ MetricType.qa_score rfl (by decide) (by decide) rfl⟩

/-- Witness for C7 on an empty collector and a one-record collector. -/
theorem C7_empty_baseline_witness :
    (getAgentMetrics (collectorInit 5) "a" 1 (some "m") 0 = []) ∧
    (getAgentMetrics
        (⟨5, fun _ => [(⟨"a", "m", 1, "", [], 0⟩ : MetricRecord)], ["a"]⟩ : CollectorState)
        "a" 1 (some "m") 0 ≠ []) ∧
    (calculateBaseline id (collectorInit 5) "a" "m" 1 0
        = ⟨0, 0, 0, 0, 0, 0, some "No metrics found"⟩ ∧
     (calculateBaseline id
        (⟨5, fun _ => [(⟨"a", "m", 1, "", [], 0⟩ : MetricRecord)], ["a"]⟩ : CollectorState)
        "a" "m" 1 0).error = none ∧
     (calculateBaseline id
        (⟨5, fun _ => [(⟨"a", "m", 1, "", [], 0⟩ : MetricRecord)], ["a"]⟩ : CollectorState)
        "a" "m" 1 0).count ≠ 0) := by
  have hne : getAgentMetrics
      (⟨5, fun _ => [(⟨"a", "m", 1, "", [], 0⟩ : MetricRecord)], ["a"]⟩ : CollectorState)
      "a" 1 (some "m") 0 ≠ [] := by
    norm_num [getAgentMetrics]
  exact ⟨rfl, hne,
    C7_empty_baseline_marked id (collectorInit 5)
      (⟨5, fun _ => [(⟨"a", "m", 1, "", [], 0⟩ : MetricRecord)], ["a"]⟩ : CollectorState)
      "a" "a" "m" "m" 1 1 0 0 rfl hne⟩

/-- Witness for C9 on a fresh collector of capacity 1. -/
theorem C9_roundtrip_witness :
    (1 ≤ (collectorInit 1).max_records_per_agent) ∧
    ((0 : ℚ) - 0 ≤ 0) ∧
    toDict (recordMetric (collectorInit 1) 0 "a" "qa_score" 7 "" []).1
      ∈ getAgentMetrics (recordMetric (collectorInit 1) 0 "a" "qa_score" 7 "" []).2
          "a" 0 none 0 :=
  ⟨by decide, by norm_num,
   C9_record_roundtrip (collectorInit 1) "a" "qa_score" 7 "" [] 0 0 0
     (by decide) (by norm_num)⟩

/-- Witness for C10 at the fresh detector and cost value 3. -/
theorem C10_no_baseline_witness :
    (detectorInit.is_trained MetricType.cost = false) ∧
    (detectorInit.baselines MetricType.cost = none) ∧
    ((detectSingle detectorInit MetricType.cost 3 []).expected_value = 0 ∧
     (detectSingle detectorInit MetricType.cost 3 []).suggested_action
       = getSuggestedAction (metricTypeStr MetricType.cost)
           (if checkThresholdViolation MetricType.cost 3 then (-1 : ℚ) else 1) 3 0) :=
  ⟨rfl, rfl, C10_no_baseline_expected_value_zero detectorInit MetricType.cost 3 [] rfl rfl⟩

end ECT
